import Mathlib

/-!
Shallow embedding of the devhub UI slice: the `Column` container's
FOCUS_ON_COLUMN highlight handler (src/unnamed/part_000) and the `Sidebar`
component's derived visibility flags and event handlers
(src/packages/components/src/components/layout/Sidebar.tsx).

JavaScript truthiness is made explicit: a string is truthy iff non-empty,
an optional boolean is truthy iff `some true`, a number is truthy iff
non-zero, an optional object is truthy iff `some _`.
-/

namespace DevHub

/-- Payload of the FOCUS_ON_COLUMN broadcast event:
`{ columnId, highlight?, animated?, scrollTo? }`. -/
structure FocusOnColumnPayload where
  columnId : String
  highlight : Option Bool
  animated : Option Bool
  scrollTo : Option Bool
deriving Repr, DecidableEq

/-- JS truthiness of an optional boolean (`undefined` is falsy). -/
def jsTruthy : Option Bool → Bool
  | some b => b
  | none => false

/-- JS truthiness of an optional string (`undefined`, `null` and `''` are falsy). -/
def optStringTruthy : Option String → Bool
  | some s => s != ""
  | none => false

/-- Observable outcome of one run of the Column FOCUS_ON_COLUMN handler:
the border opacity it leaves behind and whether it scheduled the revert
timer (and with which delay in milliseconds). -/
structure FocusHandlerResult where
  opacity : Nat
  timerScheduled : Bool
  timerDelayMs : Nat
deriving Repr, DecidableEq

/-- The Column component's FOCUS_ON_COLUMN handler (part_000 lines 46-68).
`borderMounted` models `columnBorderRef.current` being non-null;
`currentOpacity` is the border opacity before the event.
Mirrors:
- `if (!columnBorderRef.current) return`
- `if (!(payload.columnId && payload.columnId === columnId)) { opacity 0; return }`
- `if (payload.highlight) { opacity 1; setTimeout(.., 1000) }`
(the web-only `tryFocus` call touches no opacity and is not modelled). -/
def focusOnColumnHandler (borderMounted : Bool) (instanceColumnId : String)
    (payload : FocusOnColumnPayload) (currentOpacity : Nat) : FocusHandlerResult :=
  if !borderMounted then
    ⟨currentOpacity, false, 0⟩
  else if !(payload.columnId != "" && payload.columnId == instanceColumnId) then
    ⟨0, false, 0⟩
  else if jsTruthy payload.highlight then
    ⟨1, true, 1000⟩
  else
    ⟨currentOpacity, false, 0⟩

/-- Body of the `setTimeout` callback scheduled by the handler
(part_000 lines 58-61): if the border ref is still mounted, the opacity is
reset to 0; otherwise nothing happens. -/
def highlightTimerFire (borderMounted : Bool) (opacity : Nat) : Nat :=
  if !borderMounted then opacity else 0

/-- Modelled from the spec: the layout size-class labels (the
`LayoutContext` module is not part of this slice). The spec describes
`sizename` as a discrete, ordered set of breakpoint labels whose smallest
member is `'1-small'`; the source compares against `'1-small'` and
`'3-large'`, and the spec calls the `>= '3-large'` case "the largest size
class". We therefore take the three ordered labels used by this slice. -/
inductive SizeName
  | s1small
  | s2medium
  | s3large
deriving Repr, DecidableEq

/-- Position of a size class in the order (matches the lexicographic order
of the label strings `'1-small' < '2-medium' < '3-large'`). -/
def SizeName.rank : SizeName → Nat
  | .s1small => 1
  | .s2medium => 2
  | .s3large => 3

/-- Modelled from the spec: the app view mode exposed by the layout
collaborator is `'single-column' | other`. -/
inductive AppViewMode
  | singleColumn
  | multiColumn
deriving Repr, DecidableEq

/-- A modal payload; only its tag (`name`) is inspected by this slice. -/
structure ModalPayload where
  name : String
deriving Repr, DecidableEq

/-- Snapshot of everything the Sidebar's derived flags and the settings
button read: props and store/context state (Sidebar.tsx lines 58-103). -/
structure SidebarState where
  horizontal : Bool
  appViewMode : AppViewMode
  sizename : SizeName
  columnIds : List String
  currentOpenedModal : Option ModalPayload
deriving Repr, DecidableEq

/-- `const small = sizename === '1-small'` (Sidebar.tsx line 96). -/
def SidebarState.small (s : SidebarState) : Bool :=
  s.sizename == .s1small

/-- `const large = sizename >= '3-large'` (Sidebar.tsx line 97). -/
def SidebarState.large (s : SidebarState) : Bool :=
  decide (SizeName.rank .s3large ≤ s.sizename.rank)

/-- `const showLabel = !!horizontal` (Sidebar.tsx line 100). -/
def showLabel (s : SidebarState) : Bool :=
  s.horizontal

/-- `const showFixedSettingsButton = !horizontal || columnIds.length >= 4`
(Sidebar.tsx line 101). -/
def showFixedSettingsButton (s : SidebarState) : Bool :=
  !s.horizontal || decide (4 ≤ s.columnIds.length)

/-- `const highlightFocusedColumn = (appViewMode === 'single-column' || small)
&& !currentOpenedModal` (Sidebar.tsx lines 102-103). -/
def highlightFocusedColumn (s : SidebarState) : Bool :=
  (s.appViewMode == .singleColumn || s.small) && !s.currentOpenedModal.isSome

/-- Condition under which the inline "add column" list header is rendered:
`!(columnIds && columnIds.length) && !large` (Sidebar.tsx line 197; the
`columnIds` array itself is always truthy, so the first factor is
`columnIds.length === 0`). -/
def showAddColumnHeader (s : SidebarState) : Bool :=
  decide (s.columnIds.length = 0) && !s.large

/-- `currentOpenedModal && currentOpenedModal.name === 'SETTINGS'`. -/
def currentModalIsSettings (s : SidebarState) : Bool :=
  match s.currentOpenedModal with
  | some m => m.name == "SETTINGS"
  | none => false

/-- Store action invoked (or not) by a settings button press. -/
inductive SettingsPressEffect
  | closeAllModals
  | noop
  | replaceModal (payload : ModalPayload)
deriving Repr, DecidableEq

/-- The settings button's onPress (identical at Sidebar.tsx lines 249-257
and 374-382):
`small && currentOpenedModal && currentOpenedModal.name === 'SETTINGS'
  ? (columnIds.length === 0 ? closeAllModals() : undefined)
  : replaceModal({ name: 'SETTINGS' })`. -/
def settingsButtonOnPress (s : SidebarState) : SettingsPressEffect :=
  if s.small && currentModalIsSettings s then
    if s.columnIds.length == 0 then .closeAllModals else .noop
  else
    .replaceModal ⟨"SETTINGS"⟩

/-- One side effect of a sidebar column item press, in order of execution. -/
inductive SidebarPressEffect
  | recordClickTimestamp (columnId : String)
  | closeAllModals
  | emitFocusOnColumn (payload : FocusOnColumnPayload)
deriving Repr, DecidableEq

/-- `SidebarColumnItem`'s onPress (Sidebar.tsx lines 495-506), as the
ordered list of effects it performs:
`if (onPress) onPress(column.id)` (which runs `onSidebarItemPress`,
updating `sidebarLastClickedAtRef` — modelled as `recordClickTimestamp`),
then `if (currentOpenedModal) closeAllModals()`, then
`emitter.emit('FOCUS_ON_COLUMN', { animated: !small || !currentOpenedModal,
columnId: column.id, highlight: !small, scrollTo: true })`. -/
def sidebarColumnItemOnPress (small : Bool) (currentOpenedModal : Option ModalPayload)
    (columnId : String) : List SidebarPressEffect :=
  [.recordClickTimestamp columnId]
    ++ (if currentOpenedModal.isSome then [.closeAllModals] else [])
    ++ [.emitFocusOnColumn
          ⟨columnId, some (!small), some (!small || !currentOpenedModal.isSome), some true⟩]

/-- Arguments of the `flatListRef.current.scrollToItem` call. -/
structure ScrollToItemCommand where
  item : String
  animated : Bool
  viewPosition : Rat
deriving Repr, DecidableEq

/-- The Sidebar's scroll-to-focus layout effect (Sidebar.tsx lines 76-90),
run when `focusedColumnId` or `focusedColumnIndex` changes. Returns the
scroll command it issues, or `none` when it bails out:
`if (!(flatListRef.current && focusedColumnId)) return` then
`if (sidebarLastClickedAtRef.current && Date.now() - sidebarLastClickedAtRef.current < 1000) return`
then `scrollToItem({ animated: true, item: focusedColumnId, viewPosition: 0.5 })`.
`now` and `sidebarLastClickedAt` are wall-clock milliseconds. -/
def sidebarScrollToFocusedEffect (flatListPresent : Bool) (focusedColumnId : Option String)
    (sidebarLastClickedAt now : Nat) : Option ScrollToItemCommand :=
  if !(flatListPresent && optStringTruthy focusedColumnId) then
    none
  else if decide (sidebarLastClickedAt ≠ 0) && decide (now - sidebarLastClickedAt < 1000) then
    none
  else
    some ⟨focusedColumnId.getD "", true, 1 / 2⟩

/-- A resolved column record; only its id is read by the sidebar item. -/
structure ColumnRec where
  id : String
deriving Repr, DecidableEq

/-- Per-column display metadata resolved by the `useColumn` hook. -/
structure ColumnHeaderDetails where
  title : String
  subtitle : String
  icon : String
deriving Repr, DecidableEq

/-- What a rendered sidebar column item exposes (key, label, tooltip, icon). -/
structure RenderedSidebarItem where
  key : String
  label : String
  tooltip : String
  icon : String
deriving Repr, DecidableEq

/-- `SidebarColumnItem`'s render result as a function of the `useColumn`
lookup (Sidebar.tsx lines 470-517):
`if (!(column && columnIndex >= 0 && headerDetails)) return null`, else an
item with label `` `${headerDetails.title || ''}`.toLowerCase() `` and
tooltip `` `${title} (${subtitle})`.toLowerCase().trim() ``. -/
def renderSidebarColumnItem (column : Option ColumnRec) (columnIndex : Int)
    (headerDetails : Option ColumnHeaderDetails) : Option RenderedSidebarItem :=
  match column, headerDetails with
  | some col, some hd =>
    if columnIndex < 0 then
      none
    else
      some ⟨"sidebar-column-" ++ col.id,
            hd.title.toLower,
            (hd.title ++ " (" ++ hd.subtitle ++ ")").toLower.trim,
            hd.icon⟩
  | _, _ => none

/-! ## Theorems -/

/-- C3: every FOCUS_ON_COLUMN event whose `columnId` does not match a
mounted Column instance's own id leaves that instance's highlight border
at opacity 0 (idle), whatever the previous opacity was. -/
theorem nonmatching_focus_event_forces_idle
    (instanceColumnId : String) (payload : FocusOnColumnPayload) (currentOpacity : Nat)
    (h : payload.columnId ≠ instanceColumnId) :
    (focusOnColumnHandler true instanceColumnId payload currentOpacity).opacity = 0 := by
  unfold focusOnColumnHandler
  simp only [Bool.not_true, Bool.false_eq_true, if_false]
  rw [if_pos]
  simp [h]

theorem nonmatching_focus_event_forces_idle_witness :
    (focusOnColumnHandler true "col-a" ⟨"col-b", some true, none, none⟩ 1).opacity = 0 :=
  nonmatching_focus_event_forces_idle "col-a" ⟨"col-b", some true, none, none⟩ 1 (by decide)

/-- C4: a FOCUS_ON_COLUMN event whose `columnId` is non-empty and matches
the instance, with `highlight` truthy, sets the border opacity to 1 and
schedules a 1000ms timer whose firing (while still mounted) resets the
opacity to 0. -/
theorem matching_highlight_event_flashes_border
    (instanceColumnId : String) (payload : FocusOnColumnPayload) (currentOpacity : Nat)
    (hne : payload.columnId ≠ "") (hm : payload.columnId = instanceColumnId)
    (hh : payload.highlight = some true) :
    (focusOnColumnHandler true instanceColumnId payload currentOpacity).opacity = 1
    ∧ (focusOnColumnHandler true instanceColumnId payload currentOpacity).timerScheduled = true
    ∧ (focusOnColumnHandler true instanceColumnId payload currentOpacity).timerDelayMs = 1000
    ∧ highlightTimerFire true
        (focusOnColumnHandler true instanceColumnId payload currentOpacity).opacity = 0 := by
  subst hm
  unfold focusOnColumnHandler highlightTimerFire
  simp [hne, hh, jsTruthy]

theorem matching_highlight_event_flashes_border_witness :
    (focusOnColumnHandler true "col-a" ⟨"col-a", some true, none, none⟩ 0).opacity = 1
    ∧ (focusOnColumnHandler true "col-a" ⟨"col-a", some true, none, none⟩ 0).timerScheduled = true
    ∧ (focusOnColumnHandler true "col-a" ⟨"col-a", some true, none, none⟩ 0).timerDelayMs = 1000
    ∧ highlightTimerFire true
        (focusOnColumnHandler true "col-a" ⟨"col-a", some true, none, none⟩ 0).opacity = 0 :=
  matching_highlight_event_flashes_border "col-a" ⟨"col-a", some true, none, none⟩ 0
    (by decide) rfl rfl

/-- C10: a FOCUS_ON_COLUMN event whose `columnId` is non-empty and matches
the instance but whose `highlight` flag is absent or false leaves the
border opacity exactly as it was (neither reset to 0 nor set to 1), and
schedules no timer. -/
theorem matching_event_without_highlight_keeps_opacity
    (instanceColumnId : String) (payload : FocusOnColumnPayload) (currentOpacity : Nat)
    (hne : payload.columnId ≠ "") (hm : payload.columnId = instanceColumnId)
    (hh : payload.highlight = none ∨ payload.highlight = some false) :
    (focusOnColumnHandler true instanceColumnId payload currentOpacity).opacity = currentOpacity
    ∧ (focusOnColumnHandler true instanceColumnId payload currentOpacity).timerScheduled
        = false := by
  subst hm
  unfold focusOnColumnHandler
  rcases hh with hh | hh <;> simp [hne, hh, jsTruthy]

theorem matching_event_without_highlight_keeps_opacity_witness :
    (focusOnColumnHandler true "col-a" ⟨"col-a", none, none, some true⟩ 1).opacity = 1
    ∧ (focusOnColumnHandler true "col-a" ⟨"col-a", none, none, some true⟩ 1).timerScheduled
        = false :=
  matching_event_without_highlight_keeps_opacity "col-a" ⟨"col-a", none, none, some true⟩ 1
    (by decide) rfl (Or.inl rfl)

/-- C5: `showFixedSettingsButton` is true iff the sidebar is not
horizontal or there are at least 4 columns; at the boundary, a horizontal
sidebar with 3 columns hides it and one with 4 columns shows it. -/
theorem show_fixed_settings_button_iff (s : SidebarState) :
    (showFixedSettingsButton s = true ↔ (s.horizontal = false ∨ 4 ≤ s.columnIds.length))
    ∧ showFixedSettingsButton
        ⟨true, .multiColumn, .s1small, ["a", "b", "c"], none⟩ = false
    ∧ showFixedSettingsButton
        ⟨true, .multiColumn, .s1small, ["a", "b", "c", "d"], none⟩ = true := by
  refine ⟨?_, by decide, by decide⟩
  unfold showFixedSettingsButton
  cases h : s.horizontal <;> simp

/-- C6: `highlightFocusedColumn` is true iff the app view mode is
single-column or the size class is the smallest, and no modal is open. -/
theorem highlight_focused_column_iff (s : SidebarState) :
    highlightFocusedColumn s = true ↔
      ((s.appViewMode = .singleColumn ∨ s.sizename = .s1small)
        ∧ s.currentOpenedModal = none) := by
  unfold highlightFocusedColumn SidebarState.small
  cases s.currentOpenedModal <;> cases s.appViewMode <;> cases s.sizename <;> simp

/-- C9: the inline "add column" list header is rendered iff there are zero
columns and the size class is not the largest one. -/
theorem add_column_header_iff (s : SidebarState) :
    showAddColumnHeader s = true ↔
      (s.columnIds.length = 0 ∧ s.sizename ≠ SizeName.s3large) := by
  unfold showAddColumnHeader SidebarState.large SizeName.rank
  cases s.sizename <;> simp

/-- C1: the settings button press policy — in the smallest size class with
the settings modal already current, the press closes all modals when there
are zero columns and does nothing otherwise; in every other situation it
replaces the current modal with the settings modal. -/
theorem settings_press_policy (s : SidebarState) :
    (s.small = true → currentModalIsSettings s = true → s.columnIds.length = 0 →
      settingsButtonOnPress s = .closeAllModals)
    ∧ (s.small = true → currentModalIsSettings s = true → s.columnIds.length ≠ 0 →
      settingsButtonOnPress s = .noop)
    ∧ (¬(s.small = true ∧ currentModalIsSettings s = true) →
      settingsButtonOnPress s = .replaceModal ⟨"SETTINGS"⟩) := by
  refine ⟨fun h1 h2 h3 => ?_, fun h1 h2 h3 => ?_, fun h => ?_⟩ <;>
    simp_all [settingsButtonOnPress]

theorem settings_press_policy_witness :
    settingsButtonOnPress ⟨true, .multiColumn, .s1small, [], some ⟨"SETTINGS"⟩⟩
      = SettingsPressEffect.closeAllModals :=
  (settings_press_policy ⟨true, .multiColumn, .s1small, [], some ⟨"SETTINGS"⟩⟩).1
    rfl rfl rfl

/-- C2: the scroll-to-focus layout effect issues an animated
`scrollToItem` at viewPosition 0.5 for the focused column id, unless a
sidebar item click recorded a timestamp within the last 1000ms, in which
case it does nothing. -/
theorem scroll_to_focus_debounce (fid : String) (lastClickedAt now : Nat)
    (hfid : fid ≠ "") :
    (lastClickedAt ≠ 0 ∧ now - lastClickedAt < 1000 →
      sidebarScrollToFocusedEffect true (some fid) lastClickedAt now = none)
    ∧ (¬(lastClickedAt ≠ 0 ∧ now - lastClickedAt < 1000) →
      sidebarScrollToFocusedEffect true (some fid) lastClickedAt now =
        some ⟨fid, true, 1 / 2⟩) := by
  unfold sidebarScrollToFocusedEffect optStringTruthy
  constructor
  · rintro ⟨h1, h2⟩
    simp [hfid, h1, h2]
  · intro h
    rw [not_and_or] at h
    rcases h with h | h
    · rw [not_not] at h
      simp [hfid, h]
    · simp [hfid, h]

theorem scroll_to_focus_debounce_witness :
    sidebarScrollToFocusedEffect true (some "col-1") 0 500 =
      some ⟨"col-1", true, 1 / 2⟩ :=
  (scroll_to_focus_debounce "col-1" 0 500 (by decide)).2 (by decide)

/-- C7: pressing a sidebar column item first records the debounce
timestamp, closes all modals exactly when one is open (before the emit),
and finally emits FOCUS_ON_COLUMN with payload
`{columnId, highlight: !small, animated: !small || !modalOpen, scrollTo: true}`. -/
theorem sidebar_item_press_effects (small : Bool) (modal : Option ModalPayload)
    (columnId : String) :
    (sidebarColumnItemOnPress small modal columnId).head? =
      some (.recordClickTimestamp columnId)
    ∧ (SidebarPressEffect.closeAllModals ∈ sidebarColumnItemOnPress small modal columnId
        ↔ modal.isSome = true)
    ∧ (sidebarColumnItemOnPress small modal columnId).getLast? =
      some (.emitFocusOnColumn
        ⟨columnId, some (!small), some (!small || !modal.isSome), some true⟩)
    ∧ (modal.isSome = true →
      sidebarColumnItemOnPress small modal columnId =
        [.recordClickTimestamp columnId, .closeAllModals,
         .emitFocusOnColumn
           ⟨columnId, some (!small), some (!small || !modal.isSome), some true⟩]) := by
  cases modal <;> simp [sidebarColumnItemOnPress]

theorem sidebar_item_press_effects_witness :
    sidebarColumnItemOnPress true (some ⟨"SETTINGS"⟩) "col-1" =
      [.recordClickTimestamp "col-1", .closeAllModals,
       .emitFocusOnColumn ⟨"col-1", some false, some false, some true⟩] :=
  (sidebar_item_press_effects true (some ⟨"SETTINGS"⟩) "col-1").2.2.2 rfl

/-- C8: when the per-column lookup fails to resolve the column, a
non-negative index, or the header metadata, the sidebar item renders
nothing (and, being a total function, raises no error). -/
theorem unresolved_column_renders_nothing (column : Option ColumnRec) (columnIndex : Int)
    (headerDetails : Option ColumnHeaderDetails)
    (h : column = none ∨ columnIndex < 0 ∨ headerDetails = none) :
    renderSidebarColumnItem column columnIndex headerDetails = none := by
  cases column <;> cases headerDetails <;>
    rcases h with h | h | h <;> simp_all [renderSidebarColumnItem]

theorem unresolved_column_renders_nothing_witness :
    renderSidebarColumnItem (some ⟨"c1"⟩) (-1) (some ⟨"title", "subtitle", "plus"⟩) = none :=
  unresolved_column_renders_nothing (some ⟨"c1"⟩) (-1)
    (some ⟨"title", "subtitle", "plus"⟩) (Or.inr (Or.inl (by decide)))

end DevHub
